import Mathlib

/-!
Verification of the terminal theme detector
(`src/tools/terminal_theme_detector.py`) against its specification.

The Python module is shallowly embedded: strings are modelled as lists of
code points (`Str := List Nat`), fallible parsing returns `Option`,
exceptions that the code lets escape are modelled with `Except Unit`, and
the probe I/O (terminal device, environment variables, registry, IPC) is
modelled by an explicit environment record whose fields hold each probe's
observable outcome.
-/

namespace NicelsTheme

/-! ## Byte strings and Python-style numeric parsing -/

/-- A Python string, modelled as its list of code points. -/
abbrev Str := List Nat

/-- Code points that Python's `str.strip()` removes (ASCII whitespace). -/
def isPySpace (b : Nat) : Bool :=
  b == 32 || b == 9 || b == 10 || b == 13 || b == 11 || b == 12

/-- Drop leading whitespace. -/
def dropWs : Str → Str
  | [] => []
  | c :: r => if isPySpace c then dropWs r else c :: r

/-- Python `str.strip()`: remove leading and trailing whitespace. -/
def pyStrip (cs : Str) : Str :=
  ((dropWs (dropWs cs).reverse)).reverse

/-- Is `b` the code of a hexadecimal digit (`0-9`, `a-f`, `A-F`)? -/
def isHexByte (b : Nat) : Bool :=
  (48 ≤ b && b ≤ 57) || (97 ≤ b && b ≤ 102) || (65 ≤ b && b ≤ 70)

/-- Numeric value of a hexadecimal digit code point. -/
def hvB (b : Nat) : Nat :=
  if 48 ≤ b && b ≤ 57 then b - 48
  else if 97 ≤ b && b ≤ 102 then b - 87
  else if 65 ≤ b && b ≤ 70 then b - 55
  else 0

/-- Is `b` the code of a decimal digit? -/
def isDecByte (b : Nat) : Bool := 48 ≤ b && b ≤ 57

/-- Continue a digit run after its first digit.  As in Python's `int`,
a single underscore is allowed between two digits. -/
def digitsRun (isD : Nat → Bool) (dv : Nat → Nat) (base : Nat) :
    Str → Nat → Option Nat
  | [], acc => some acc
  | c :: rest, acc =>
      if c == 95 then
        match rest with
        | [] => none
        | c' :: rest' =>
            if isD c' then digitsRun isD dv base rest' (base * acc + dv c')
            else none
      else if isD c then digitsRun isD dv base rest (base * acc + dv c)
      else none

/-- A nonempty digit run (underscores allowed between digits). -/
def parseDigits (isD : Nat → Bool) (dv : Nat → Nat) (base : Nat) :
    Str → Option Nat
  | c :: rest => if isD c then digitsRun isD dv base rest (dv c) else none
  | [] => none

/-- Magnitude part of Python `int(s, 16)`: optional `0x`/`0X` prefix
(with an optional underscore right after it), then hex digits. -/
def hexMag : Str → Option Nat
  | c0 :: c1 :: rest =>
      if c0 == 48 && (c1 == 120 || c1 == 88) then
        match rest with
        | c2 :: rest' =>
            if c2 == 95 then parseDigits isHexByte hvB 16 rest'
            else parseDigits isHexByte hvB 16 (c2 :: rest')
        | [] => none
      else parseDigits isHexByte hvB 16 (c0 :: c1 :: rest)
  | cs => parseDigits isHexByte hvB 16 cs

/-- Magnitude part of Python `int(s, 10)`. -/
def decMag (cs : Str) : Option Nat :=
  parseDigits isDecByte (fun b => b - 48) 10 cs

/-- Optional sign, then a magnitude. -/
def pyIntSigned (mag : Str → Option Nat) : Str → Option Int
  | [] => (mag []).map (fun n => (n : Int))
  | c :: rest =>
      if c == 43 then (mag rest).map (fun n => (n : Int))
      else if c == 45 then (mag rest).map (fun n => -(n : Int))
      else (mag (c :: rest)).map (fun n => (n : Int))

/-- Python `int(s, 16)` (whitespace, sign, `0x` prefix, underscores). -/
def pyIntHex (cs : Str) : Option Int := pyIntSigned hexMag (pyStrip cs)

/-- Python `int(s, 10)`. -/
def pyIntDec (cs : Str) : Option Int := pyIntSigned decMag (pyStrip cs)

/-! ## IEEE binary64 arithmetic

`_luma` computes in Python floats (IEEE binary64, round to nearest,
ties to even).  A finite nonzero double is represented as
`(m, e) : Int × Int` with value `m * 2^e`, normalized so that
`|m| ∈ [2^52, 2^53)`; zero is `(0, 0)`.  Every CPython float operation
in `_luma` rounds the exact rational result once (the magnitudes there
never overflow or go subnormal), which is what `roundRatF` does. -/

/-- A represented double: significand and binary exponent. -/
abbrev F := Int × Int

/-- Fuel-driven floor of `log2` (structural recursion, so kernel
reduction works where `Nat.log2`'s well-founded recursion would not). -/
def log2fuel : Nat → Nat → Nat
  | 0, _ => 0
  | fuel + 1, n => if 2 ≤ n then log2fuel fuel (n / 2) + 1 else 0

/-- Round `N / D` to the nearest integer, ties to even. -/
def roundNat (N D : Nat) : Nat :=
  let q := N / D
  let r := N % D
  if D < 2 * r then q + 1
  else if 2 * r < D then q
  else if q % 2 = 0 then q
  else q + 1

/-- Round the rational `n / d` to the nearest binary64 value (normal
range; zero for `n = 0`).  The exponent is found by scaling into a
200-bit window, far wider than any magnitude `_luma` produces. -/
def roundRatF (n : Int) (d : Nat) : F :=
  if n = 0 ∨ d = 0 then (0, 0)
  else
    let nn := n.natAbs
    let E : Int := (log2fuel 1000 (nn * 2 ^ 200 / d) : Int) - 200
    let s : Int := 52 - E
    let N := if 0 ≤ s then nn * 2 ^ s.toNat else nn
    let D := if 0 ≤ s then d else d * 2 ^ (-s).toNat
    let m := roundNat N D
    if m = 2 ^ 53 then
      (if n < 0 then -(2 ^ 52 : Int) else (2 ^ 52 : Int), E - 51)
    else (if n < 0 then -(m : Int) else (m : Int), E - 52)

/-- Round `M * 2^e` (used by addition and multiplication). -/
def fscale (M : Int) (e : Int) : F :=
  if 0 ≤ e then roundRatF (M * 2 ^ e.toNat) 1
  else roundRatF M (2 ^ (-e).toNat)

/-- IEEE double addition: exact sum, one rounding. -/
def fadd (a b : F) : F :=
  let e := min a.2 b.2
  fscale (a.1 * 2 ^ (a.2 - e).toNat + b.1 * 2 ^ (b.2 - e).toNat) e

/-- IEEE double multiplication: exact product, one rounding. -/
def fmul (a b : F) : F := fscale (a.1 * b.1) (a.2 + b.2)

/-- IEEE double division: exact quotient, one rounding (sign moved to
the numerator). -/
def fdiv (a b : F) : F :=
  let n : Int := if b.1 < 0 then -a.1 else a.1
  let e : Int := a.2 - b.2
  if 0 ≤ e then roundRatF (n * 2 ^ e.toNat) b.1.natAbs
  else roundRatF n (b.1.natAbs * 2 ^ (-e).toNat)

/-- The double nearest to a Python int (exact below `2^53`); CPython
converts the int operand of `r / 255.0` this way before dividing. -/
def fofInt (n : Int) : F := roundRatF n 1

/-- IEEE `<` on represented doubles: comparison of the exact values. -/
def flt (a b : F) : Bool :=
  decide (a.1 * 2 ^ (a.2 - min a.2 b.2).toNat
    < b.1 * 2 ^ (b.2 - min a.2 b.2).toNat)

/-- The exact rational value of a represented double. -/
def fval (a : F) : ℚ := (a.1 : ℚ) * (2 : ℚ) ^ a.2

/-- The double denoted by the Python literal `0.2126`. -/
def c2126 : F := roundRatF 2126 10000

/-- The double denoted by the Python literal `0.7152`. -/
def c7152 : F := roundRatF 7152 10000

/-- The double denoted by the Python literal `0.0722`. -/
def c0722 : F := roundRatF 722 10000

/-- The double `255.0`. -/
def f255 : F := roundRatF 255 1

/-- The double `0.5` (exactly `2^52 * 2^-53`). -/
def fHalf : F := ((2 : Int) ^ 52, -53)

/-! ## Classifier (`_luma`, `_mode_from_rgb`) -/

/-- An RGB triple as produced by the Python parsers (Python ints). -/
abbrev RGB := Int × Int × Int

/-- `_luma`: the Rec. 709 combination evaluated exactly as CPython
does — each channel divided by `255.0`, multiplied by its literal
coefficient, the three products summed left to right, every operation
in binary64. -/
def luma (rgb : RGB) : F :=
  fadd (fadd (fmul c2126 (fdiv (fofInt rgb.1) f255))
      (fmul c7152 (fdiv (fofInt rgb.2.1) f255)))
    (fmul c0722 (fdiv (fofInt rgb.2.2) f255))

/-- The exact-rational Rec. 709 luma
`0.2126*(r/255) + 0.7152*(g/255) + 0.0722*(b/255)` — the mathematical
value the spec's formula denotes, stated for comparison with the
program's float computation. -/
def lumaSpec (rgb : RGB) : ℚ :=
  0.2126 * ((rgb.1 : ℚ) / 255) + 0.7152 * ((rgb.2.1 : ℚ) / 255)
    + 0.0722 * ((rgb.2.2 : ℚ) / 255)

/-- `_mode_from_rgb`: `"dark"` when the float luma is below `0.5`,
else `"light"`. -/
def mode_from_rgb (rgb : RGB) : String :=
  if flt (luma rgb) fHalf then "dark" else "light"

/-! ## Response parser (`_rgb_from_hexlike`) -/

/-- The code points of the literal `"rgb:"`. -/
def rgbColonPat : Str := [114, 103, 98, 58]

/-- Does `pat` occur as a contiguous sublist at the front of `cs`? -/
def headMatches : Str → Str → Bool
  | [], _ => true
  | _ :: _, [] => false
  | p :: ps, c :: cs => p == c && headMatches ps cs

/-- Python `s.split(pat, 1)[1]`: the remainder after the first occurrence
of `pat`; `none` when `pat` does not occur (`pat in s` is false). -/
def afterFirstSub (pat : Str) : Str → Option Str
  | [] => none
  | c :: rest =>
      if headMatches pat (c :: rest) then some ((c :: rest).drop pat.length)
      else afterFirstSub pat rest

/-- `re.split(r"[\x07\x1b]", part)[0]`: the prefix before the first BEL
or ESC code point. -/
def beforeCtl (cs : Str) : Str :=
  cs.takeWhile (fun c => !(c == 7 || c == 27))

/-- Python `part.split("/")` (all occurrences, keeping empty parts). -/
def splitOnSlash : Str → List Str
  | [] => [[]]
  | c :: rest =>
      let r := splitOnSlash rest
      if c == 47 then [] :: r
      else match r with
        | [] => [[c]]
        | p :: ps => (c :: p) :: ps

/-- `_rgb_from_hexlike` on code points: parse `rgb:a/b/c` or `#aabbcc`
forms into an RGB triple; `none` on any failure. -/
def rgb_from_hexlike_b (s : Str) : Option RGB :=
  let cs := pyStrip s
  match afterFirstSub rgbColonPat cs with
  | some part =>
      (match splitOnSlash (beforeCtl part) with
       | a :: b :: c :: _ => do
           let x ← pyIntHex a
           let y ← pyIntHex b
           let z ← pyIntHex c
           pure (x, y, z)
       | _ => none)
  | none =>
      match afterFirstSub [35] cs with
      | some part =>
          let part6 := (beforeCtl part).take 6
          (do
            let x ← pyIntHex (part6.take 2)
            let y ← pyIntHex ((part6.drop 2).take 2)
            let z ← pyIntHex ((part6.drop 4).take 2)
            pure (x, y, z))
      | none => none

/-- `_rgb_from_hexlike` on a Lean string. -/
def rgb_from_hexlike (s : String) : Option RGB :=
  rgb_from_hexlike_b (s.data.map Char.toNat)

/-! ## COLORFGBG heuristic (`_rgb_from_colorfgbg`) -/

/-- Python `env_val.split(";")`. -/
def splitOnSemi : Str → List Str
  | [] => [[]]
  | c :: rest =>
      let r := splitOnSemi rest
      if c == 59 then [] :: r
      else match r with
        | [] => [[c]]
        | p :: ps => (c :: p) :: ps

/-- The crude xterm-ish 16-entry palette from `_rgb_from_colorfgbg`. -/
def colorTable : List RGB :=
  [(0, 0, 0), (205, 0, 0), (0, 205, 0), (205, 205, 0),
   (0, 0, 238), (205, 0, 205), (0, 205, 205), (229, 229, 229),
   (127, 127, 127), (255, 0, 0), (0, 255, 0), (255, 255, 0),
   (92, 92, 255), (255, 0, 255), (0, 255, 255), (255, 255, 255)]

/-- `parts[-1]` of `[p for p in env_val.strip().split(";") if p != ""]`:
the last nonempty `;`-separated segment of the stripped input. -/
def cfbLastSegment (s : Str) : Option Str :=
  ((splitOnSemi (pyStrip s)).filter (fun p => !p.isEmpty)).getLast?

/-- The background index parsed from the last segment. -/
def cfbIndexB (s : Str) : Option Int :=
  (cfbLastSegment s).bind pyIntDec

/-- `_rgb_from_colorfgbg` on code points: map the background index of a
`"fg;bg"` value to a palette RGB; `none` on any failure. -/
def rgb_from_colorfgbg_b (s : Str) : Option RGB :=
  match cfbIndexB s with
  | none => none
  | some idx =>
      if 0 ≤ idx && idx < 16 then some (colorTable.getD idx.toNat (0, 0, 0))
      else none

/-- `_rgb_from_colorfgbg` on a Lean string. -/
def rgb_from_colorfgbg (s : String) : Option RGB :=
  rgb_from_colorfgbg_b (s.data.map Char.toNat)

/-! ## OSC reply parsing (`_osc_query_background_rgb`, lines 162-177)

The reply buffer is searched with the pattern
`rgb:([0-9a-fA-F]{2,4})/([0-9a-fA-F]{2,4})/([0-9a-fA-F]{2,4})`
(leftmost match, greedy groups with backtracking), then each captured
group is truncated to its first two hex digits. -/

/-- Take exactly `n` hex-digit code points from the front. -/
def takeExactHex : Nat → Str → Option (Str × Str)
  | 0, cs => some ([], cs)
  | _ + 1, [] => none
  | n + 1, c :: cs =>
      if isHexByte c then
        (takeExactHex n cs).map (fun g => (c :: g.1, g.2))
      else none

/-- Expect the code point `b` at the front. -/
def expectByte (b : Nat) : Str → Option Str
  | [] => none
  | c :: cs => if c == b then some cs else none

/-- First success of `f` over a list of candidates (backtracking order). -/
def firstSome (f : Nat → Option α) : List Nat → Option α
  | [] => none
  | n :: ns => (f n).orElse (fun _ => firstSome f ns)

/-- Match `{2,4}` hex digits, `/`, `{2,4}` hex digits, `/`, `{2,4}` hex
digits, with each group greedy (lengths tried 4, 3, 2). -/
def matchTriple (cs : Str) : Option (Str × Str × Str) :=
  firstSome (fun n1 =>
    (takeExactHex n1 cs).bind (fun g1 =>
      (expectByte 47 g1.2).bind (fun r1 =>
        firstSome (fun n2 =>
          (takeExactHex n2 r1).bind (fun g2 =>
            (expectByte 47 g2.2).bind (fun r2 =>
              firstSome (fun n3 =>
                (takeExactHex n3 r2).map (fun g3 => (g1.1, g2.1, g3.1)))
                [4, 3, 2]))) [4, 3, 2]))) [4, 3, 2]

/-- Strip a literal `rgb:` from the front. -/
def afterRgbColon : Str → Option Str
  | 114 :: 103 :: 98 :: 58 :: rest => some rest
  | _ => none

/-- `re.search` for the reply pattern: try each start position from the
left, returning the first full match's three groups. -/
def searchRgb : Str → Option (Str × Str × Str)
  | [] => none
  | c :: rest =>
      (match afterRgbColon (c :: rest) with
       | some tl => matchTriple tl
       | none => none).orElse (fun _ => searchRgb rest)

/-- `int(h[:2], 16)` for a captured (all-hex) group. -/
def firstTwoHexVal (g : Str) : Nat :=
  (g.take 2).foldl (fun acc b => 16 * acc + hvB b) 0

/-- Lines 162-177: search the reply for the `rgb:` pattern and reduce
each component to its two most-significant hex digits. -/
def oscParse (response : Str) : Option RGB :=
  (searchRgb response).map (fun g =>
    ((firstTwoHexVal g.1 : Int), (firstTwoHexVal g.2.1 : Int),
      (firstTwoHexVal g.2.2 : Int)))

/-! ## Terminal query probe (`_osc_query_background_rgb`) -/

/-- The OSC 11 query bytes `b"\x1b]11;?\x1b\\"` written to the device. -/
def querySequence : Str := [27, 93, 49, 49, 59, 63, 27, 92]

/-- One outcome of `os.read(fd, 1)`: a byte, an empty read (EOF), or an
`OSError`.  The empty read is modelled by exhausting the event list. -/
inductive ReadEv where
  | byte (b : Nat)
  | readErr
  deriving DecidableEq, Repr

/-- Observable behaviour of the terminal device during one probe run. -/
structure OscEnv where
  /-- `os.open("/dev/tty", ...)` succeeds. -/
  openOk : Bool
  /-- `os.write` and `termios.tcdrain` succeed. -/
  writeOk : Bool
  /-- `select.select` reports the descriptor readable within the timeout. -/
  readable : Bool
  /-- Successive outcomes of `os.read(fd, 1)`; an exhausted list models
  an empty read. -/
  reads : List ReadEv
  deriving Repr

/-- The byte-accumulation loop (lines 146-160): stop on `ESC \`, on BEL,
on an empty read, or return `none` once the buffer exceeds 100 bytes;
a read error escapes as `Except.error`. -/
def oscLoop : List ReadEv → Str → Except Unit (Option Str)
  | [], buf => Except.ok (some buf)
  | ReadEv.readErr :: _, _ => Except.error ()
  | ReadEv.byte b :: rest, buf =>
      let buf' := buf ++ [b]
      if buf'.length ≥ 2 && buf'.drop (buf'.length - 2) == [27, 92] then
        Except.ok (some buf')
      else if buf'.drop (buf'.length - 1) == [7] then
        Except.ok (some buf')
      else if buf'.length > 100 then
        Except.ok none
      else oscLoop rest buf'

/-- State of the controlling terminal device after a probe run, over an
abstract settings type `S`. -/
structure OscOut (S : Type) where
  /-- The probe's return value; `Except.error` models an escaped
  `OSError`. -/
  result : Except Unit (Option RGB)
  /-- The device's line-discipline settings after the run. -/
  settings : S
  /-- Whether our handle to the device is still open. -/
  handleOpen : Bool
  /-- The bytes the probe wrote to the device. -/
  written : Str

/-- `_osc_query_background_rgb`: the full probe over an abstract settings
type `S` with `cbreak` modelling `tty.setcbreak`.  Every path entered
after a successful open runs the `finally` block, which restores the
saved settings and closes the handle. -/
def osc_query (S : Type) (cbreak : S → S) (isWin : Bool) (e : OscEnv)
    (s0 : S) : OscOut S :=
  if isWin then ⟨Except.ok none, s0, false, []⟩
  else if !e.openOk then ⟨Except.ok none, s0, false, []⟩
  else
    -- `old_settings = termios.tcgetattr(fd)`
    let old := s0
    -- `tty.setcbreak(fd)` (inside the `try`); the `finally` block always
    -- restores `old` and closes the handle.
    let _ := cbreak s0
    if !e.writeOk then ⟨Except.error (), old, false, []⟩
    else if !e.readable then ⟨Except.ok none, old, false, querySequence⟩
    else
      match oscLoop e.reads [] with
      | Except.error () => ⟨Except.error (), old, false, querySequence⟩
      | Except.ok none => ⟨Except.ok none, old, false, querySequence⟩
      | Except.ok (some buf) =>
          ⟨Except.ok (oscParse buf), old, false, querySequence⟩

/-- The probe's return value alone (device state discarded). -/
def oscResult (isWin : Bool) (e : OscEnv) : Except Unit (Option RGB) :=
  (osc_query PUnit id isWin e PUnit.unit).result

/-! ## Detection pipeline (`TerminalThemeDetector._detect`)

The COLORFGBG heuristic, the console-registry, GNOME and preference
probes swallow all of their internal exceptions (`try/except` or
`contextlib.suppress`), so each is modelled by the `Option` it
returns, recorded in an environment.  Two probes can let an exception
escape and are modelled with `Except`: the terminal query (`os.read`
and the other device calls are not wrapped) and
`_windows_terminal_profile_bg_rgb` (only the `profiles`-list
extraction sits inside `contextlib.suppress`; the later
`data.get("profiles", {}).get("defaults", {})`, the `p.get` calls in
the generator and the scheme lookups raise `AttributeError` on
non-dict JSON values, outside any handler).  `_detect` is instrumented
with the list of probes whose code actually ran, in order, to settle
the sequencing and caching claims. -/

/-- A successful detection outcome (the `DetectionResult` dataclass). -/
structure DetectionResult where
  mode : String
  source : String
  rgb : Option RGB
  deriving DecidableEq, Repr

/-- The probes `_detect` can invoke, plus the final default. -/
inductive Probe where
  | osc
  | colorfgbg
  | wt
  | console
  | gnomeTerm
  | winPref
  | portal
  | gnomePref
  | dflt
  deriving DecidableEq, Repr

/-- Everything `_detect` observes from the host. -/
structure Env where
  /-- `os.name == "nt"`. -/
  isWindows : Bool
  /-- Behaviour of the controlling terminal device for the OSC probe. -/
  osc : OscEnv
  /-- `os.environ.get("COLORFGBG")`. -/
  colorfgbg : Option String
  /-- Outcome of `_windows_terminal_profile_bg_rgb()`: a sample, no
  sample, or an escaping exception (`Except.error`) — e.g. the
  `AttributeError` from `data.get("profiles", {}).get("defaults", {})`
  when `settings.json` holds a non-dict `profiles` value. -/
  wtBg : Except Unit (Option RGB)
  /-- Return of `_windows_console_default_bg_rgb()`. -/
  consoleBg : Option RGB
  /-- Return of `_gnome_terminal_bg_rgb()`. -/
  gnomeTermBg : Option RGB
  /-- Return of `_windows_os_preference()`. -/
  winPref : Option String
  /-- Return of `_linux_portal_preference()`. -/
  portalPref : Option String
  /-- Return of `_gnome_desktop_preference()`. -/
  gnomePref : Option String

/-- Python truthiness of an optional string (`None` and `""` are falsy),
as used by the walrus tests in `_detect`. -/
def truthy : Option String → Option String
  | none => none
  | some s => if s.isEmpty then none else some s

/-- The sample the COLORFGBG step yields: the variable must be set and
nonempty and `_rgb_from_colorfgbg` must parse it. -/
def cfbSample (e : Env) : Option RGB :=
  match truthy e.colorfgbg with
  | some cfb => rgb_from_colorfgbg cfb
  | none => none

/-- Step 4 of `_detect`: OS preference fallbacks, then the default. -/
def prefStage (e : Env) : Except Unit DetectionResult × List Probe :=
  if e.isWindows then
    match truthy e.winPref with
    | some p => (Except.ok ⟨p, "windows-apps-theme", none⟩, [Probe.winPref])
    | none =>
        (Except.ok ⟨"dark", "default", none⟩, [Probe.winPref, Probe.dflt])
  else
    match truthy e.portalPref with
    | some p =>
        (Except.ok ⟨p, "xdg-portal-color-scheme", none⟩, [Probe.portal])
    | none =>
        match truthy e.gnomePref with
        | some p =>
            (Except.ok ⟨p, "gnome-color-scheme", none⟩,
              [Probe.portal, Probe.gnomePref])
        | none =>
            (Except.ok ⟨"dark", "default", none⟩,
              [Probe.portal, Probe.gnomePref, Probe.dflt])

/-- Step 3 of `_detect`: terminal-specific sources.  An exception
escaping `_windows_terminal_profile_bg_rgb` escapes `_detect`. -/
def termStage (e : Env) : Except Unit DetectionResult × List Probe :=
  if e.isWindows then
    match e.wtBg with
    | Except.error () => (Except.error (), [Probe.wt])
    | Except.ok (some rgb) =>
        (Except.ok ⟨mode_from_rgb rgb, "windows-terminal-settings", some rgb⟩,
          [Probe.wt])
    | Except.ok none =>
        match e.consoleBg with
        | some rgb =>
            (Except.ok ⟨mode_from_rgb rgb, "winconsole-registry", some rgb⟩,
              [Probe.wt, Probe.console])
        | none =>
            let r := prefStage e
            (r.1, Probe.wt :: Probe.console :: r.2)
  else
    match e.gnomeTermBg with
    | some rgb =>
        (Except.ok ⟨mode_from_rgb rgb, "gnome-terminal-profile", some rgb⟩,
          [Probe.gnomeTerm])
    | none =>
        let r := prefStage e
        (r.1, Probe.gnomeTerm :: r.2)

/-- Step 2 of `_detect`: the COLORFGBG heuristic. -/
def cfbStage (e : Env) : Except Unit DetectionResult × List Probe :=
  match cfbSample e with
  | some rgb =>
      (Except.ok ⟨mode_from_rgb rgb, "COLORFGBG", some rgb⟩,
        [Probe.colorfgbg])
  | none =>
      let r := termStage e
      (r.1, Probe.colorfgbg :: r.2)

/-- `_detect`, instrumented with the ordered list of probes whose code
ran.  On Windows the walrus `None if _is_windows() else ...` skips the
OSC probe entirely; otherwise an `OSError` escaping the OSC probe
escapes `_detect` as well. -/
def detectT (e : Env) : Except Unit DetectionResult × List Probe :=
  if e.isWindows then cfbStage e
  else
    match oscResult e.isWindows e.osc with
    | Except.error () => (Except.error (), [Probe.osc])
    | Except.ok (some rgb) =>
        (Except.ok ⟨mode_from_rgb rgb, "osc-11", some rgb⟩, [Probe.osc])
    | Except.ok none =>
        let r := cfbStage e
        (r.1, Probe.osc :: r.2)

/-- `_detect` without the instrumentation. -/
def detect (e : Env) : Except Unit DetectionResult := (detectT e).1

/-! ## Public accessors and the write-once cache -/

/-- The `TerminalThemeDetector` instance state: its `_cached` field. -/
structure Detector where
  cached : Option DetectionResult
  deriving DecidableEq, Repr

/-- `TerminalThemeDetector.__init__`: `self._cached = None`. -/
def Detector.init : Detector := ⟨none⟩

/-- The `terminal_theme` property: fill the cache on first use, then
return the cached mode.  Also returns the updated instance state and the
probes invoked by this call. -/
def terminal_themeT (d : Detector) (e : Env) :
    Except Unit (String × Detector) × List Probe :=
  match d.cached with
  | some r => (Except.ok (r.mode, d), [])
  | none =>
      match detectT e with
      | (Except.ok r, t) => (Except.ok (r.mode, ⟨some r⟩), t)
      | (Except.error (), t) => (Except.error (), t)

/-- The `details` property: same cache, returning the whole result. -/
def detailsT (d : Detector) (e : Env) :
    Except Unit (DetectionResult × Detector) × List Probe :=
  match d.cached with
  | some r => (Except.ok (r, d), [])
  | none =>
      match detectT e with
      | (Except.ok r, t) => (Except.ok (r, ⟨some r⟩), t)
      | (Except.error (), t) => (Except.error (), t)

/-! ## Probe order on non-Windows hosts -/

/-- The non-Windows probe sequence, ending in the default. -/
def probeOrderNonWin : List Probe :=
  [Probe.osc, Probe.colorfgbg, Probe.gnomeTerm, Probe.portal,
   Probe.gnomePref, Probe.dflt]

/-- Whether a probe yields a concrete answer in environment `e`
(on a non-Windows host). -/
def probeYields (e : Env) : Probe → Bool
  | Probe.osc =>
      match oscResult e.isWindows e.osc with
      | Except.ok (some _) => true
      | _ => false
  | Probe.colorfgbg => (cfbSample e).isSome
  | Probe.gnomeTerm => e.gnomeTermBg.isSome
  | Probe.portal => (truthy e.portalPref).isSome
  | Probe.gnomePref => (truthy e.gnomePref).isSome
  | Probe.dflt => true
  | _ => false

/-! ## Encoders used to state the parser claims -/

/-- Lowercase hex encoding of one digit value. -/
def hexDigitByte (x : Nat) : Nat := if x < 10 then 48 + x else 87 + x

/-- Two-code-point lowercase hex encoding of a byte value. -/
def hexPair (n : Nat) : Str := [hexDigitByte (n / 16), hexDigitByte (n % 16)]

/-- `#RRGGBB` for three byte values. -/
def hashEncode (r g b : Nat) : Str :=
  35 :: (hexPair r ++ hexPair g ++ hexPair b)

/-- `rgb:H1L1/H2L2/H3L3`: three 4-hex-digit components, each made of a
high byte and a low byte. -/
def oscEncodeHL (h1 l1 h2 l2 h3 l3 : Nat) : Str :=
  rgbColonPat ++ (hexPair h1 ++ hexPair l1)
    ++ 47 :: ((hexPair h2 ++ hexPair l2)
    ++ 47 :: (hexPair h3 ++ hexPair l3))

/-- `rgb:RRRR/GGGG/BBBB`: each channel's two hex digits duplicated into
a 4-hex-digit component. -/
def oscEncode4 (r g b : Nat) : Str := oscEncodeHL r r g g b b

/-- `rgb:RR/GG/BB`: 2-hex-digit components. -/
def oscEncode2 (r g b : Nat) : Str :=
  rgbColonPat ++ hexPair r ++ 47 :: (hexPair g ++ 47 :: hexPair b)

/-- A concrete non-Windows environment in which every probe fails: no
controlling terminal, no relevant environment variables, and all
file/registry/IPC probes absent. -/
def envAllFail : Env :=
  ⟨false, ⟨false, true, true, []⟩, none, Except.ok none, none, none,
    none, none, none⟩

/-- The probe trace of a full fallback chain on `envAllFail`. -/
def fullTrace : List Probe :=
  [Probe.osc, Probe.colorfgbg, Probe.gnomeTerm, Probe.portal,
   Probe.gnomePref, Probe.dflt]

/-! ## Helper lemmas -/

lemma hexDigitByte_facts : ∀ x < 16,
    isHexByte (hexDigitByte x) = true ∧ hvB (hexDigitByte x) = x ∧
    isPySpace (hexDigitByte x) = false := by decide

lemma isHexByte_range {b : Nat} (h : isHexByte b = true) :
    (48 ≤ b ∧ b ≤ 57) ∨ (97 ≤ b ∧ b ≤ 102) ∨ (65 ≤ b ∧ b ≤ 70) := by
  simp only [isHexByte, Bool.or_eq_true, Bool.and_eq_true,
    decide_eq_true_eq] at h
  omega

lemma isHexByte_not_space {b : Nat} (h : isHexByte b = true) :
    isPySpace b = false := by
  have := isHexByte_range h
  simp only [isPySpace, Bool.or_eq_false_iff, beq_eq_false_iff_ne]
  omega

lemma dropWs_eq_self {cs : Str} (h : ∀ c ∈ cs, isPySpace c = false) :
    dropWs cs = cs := by
  cases cs with
  | nil => rfl
  | cons c r => simp [dropWs, h c (List.mem_cons_self c r)]

lemma pyStrip_eq_self {cs : Str} (h : ∀ c ∈ cs, isPySpace c = false) :
    pyStrip cs = cs := by
  rw [pyStrip, dropWs_eq_self h,
    dropWs_eq_self (fun c hc => h c (List.mem_reverse.mp hc)),
    List.reverse_reverse]

lemma afterFirstSub_rgb_none {cs : Str} (h : ∀ c ∈ cs, c ≠ 114) :
    afterFirstSub rgbColonPat cs = none := by
  induction cs with
  | nil => rfl
  | cons c r ih =>
      have hc : (114 == c) = false :=
        beq_eq_false_iff_ne.mpr (Ne.symm (h c (List.mem_cons_self c r)))
      simp only [afterFirstSub, rgbColonPat, headMatches, hc,
        Bool.false_and, if_false]
      exact ih (fun c' hc' => h c' (List.mem_cons_of_mem c hc'))

lemma beforeCtl_eq_self {cs : Str} (h : ∀ c ∈ cs, c ≠ 7 ∧ c ≠ 27) :
    beforeCtl cs = cs := by
  induction cs with
  | nil => rfl
  | cons c r ih =>
      have hc := h c (List.mem_cons_self c r)
      simp only [beforeCtl, List.takeWhile_cons,
        beq_eq_false_iff_ne.mpr hc.1, beq_eq_false_iff_ne.mpr hc.2,
        Bool.or_self, Bool.not_false, if_true, Bool.or_false]
      rw [show List.takeWhile (fun c => !(c == 7 || c == 27)) r
            = beforeCtl r from rfl,
        ih (fun c' hc' => h c' (List.mem_cons_of_mem c hc'))]

lemma pyIntHex_pair {d1 d2 : Nat} (h1 : isHexByte d1 = true)
    (h2 : isHexByte d2 = true) :
    pyIntHex [d1, d2] = some ((16 * hvB d1 + hvB d2 : Nat) : Int) := by
  have r1 := isHexByte_range h1
  have r2 := isHexByte_range h2
  have strip : pyStrip [d1, d2] = [d1, d2] := by
    refine pyStrip_eq_self (fun c hc => ?_)
    simp only [List.mem_cons, List.not_mem_nil, or_false] at hc
    rcases hc with rfl | rfl
    · exact isHexByte_not_space h1
    · exact isHexByte_not_space h2
  have e43 : (d1 == 43) = false := beq_eq_false_iff_ne.mpr (by omega)
  have e45 : (d1 == 45) = false := beq_eq_false_iff_ne.mpr (by omega)
  have e120 : (d2 == 120) = false := beq_eq_false_iff_ne.mpr (by omega)
  have e88 : (d2 == 88) = false := beq_eq_false_iff_ne.mpr (by omega)
  have e95 : (d2 == 95) = false := beq_eq_false_iff_ne.mpr (by omega)
  simp [pyIntHex, strip, pyIntSigned, e43, e45, hexMag, e120, e88,
    parseDigits, h1, digitsRun, e95, h2]

lemma hexlike_hash (r g b : Nat) (hr : r < 256) (hg : g < 256)
    (hb : b < 256) :
    rgb_from_hexlike_b (hashEncode r g b)
      = some ((r : Int), (g : Int), (b : Int)) := by
  obtain ⟨ha1, ha1v, ha1w⟩ := hexDigitByte_facts (r / 16) (by omega)
  obtain ⟨ha2, ha2v, ha2w⟩ := hexDigitByte_facts (r % 16) (by omega)
  obtain ⟨hb1, hb1v, hb1w⟩ := hexDigitByte_facts (g / 16) (by omega)
  obtain ⟨hb2, hb2v, hb2w⟩ := hexDigitByte_facts (g % 16) (by omega)
  obtain ⟨hc1, hc1v, hc1w⟩ := hexDigitByte_facts (b / 16) (by omega)
  obtain ⟨hc2, hc2v, hc2w⟩ := hexDigitByte_facts (b % 16) (by omega)
  have hcs : hashEncode r g b
      = 35 :: [hexDigitByte (r / 16), hexDigitByte (r % 16),
          hexDigitByte (g / 16), hexDigitByte (g % 16),
          hexDigitByte (b / 16), hexDigitByte (b % 16)] := by
    simp [hashEncode, hexPair]
  rw [hcs]
  have hws : ∀ c ∈ 35 :: [hexDigitByte (r / 16), hexDigitByte (r % 16),
      hexDigitByte (g / 16), hexDigitByte (g % 16),
      hexDigitByte (b / 16), hexDigitByte (b % 16)],
      isPySpace c = false := by
    intro c hc
    simp only [List.mem_cons, List.not_mem_nil, or_false] at hc
    rcases hc with rfl | rfl | rfl | rfl | rfl | rfl | rfl
    · decide
    · exact ha1w
    · exact ha2w
    · exact hb1w
    · exact hb2w
    · exact hc1w
    · exact hc2w
  have h114 : afterFirstSub rgbColonPat
      (35 :: [hexDigitByte (r / 16), hexDigitByte (r % 16),
        hexDigitByte (g / 16), hexDigitByte (g % 16),
        hexDigitByte (b / 16), hexDigitByte (b % 16)]) = none := by
    apply afterFirstSub_rgb_none
    intro c hc
    simp only [List.mem_cons, List.not_mem_nil, or_false] at hc
    rcases hc with rfl | rfl | rfl | rfl | rfl | rfl | rfl
    · decide
    · have := isHexByte_range ha1; omega
    · have := isHexByte_range ha2; omega
    · have := isHexByte_range hb1; omega
    · have := isHexByte_range hb2; omega
    · have := isHexByte_range hc1; omega
    · have := isHexByte_range hc2; omega
  have hctl : beforeCtl [hexDigitByte (r / 16), hexDigitByte (r % 16),
      hexDigitByte (g / 16), hexDigitByte (g % 16),
      hexDigitByte (b / 16), hexDigitByte (b % 16)]
      = [hexDigitByte (r / 16), hexDigitByte (r % 16),
         hexDigitByte (g / 16), hexDigitByte (g % 16),
         hexDigitByte (b / 16), hexDigitByte (b % 16)] := by
    apply beforeCtl_eq_self
    intro c hc
    simp only [List.mem_cons, List.not_mem_nil, or_false] at hc
    rcases hc with rfl | rfl | rfl | rfl | rfl | rfl
    · have := isHexByte_range ha1; omega
    · have := isHexByte_range ha2; omega
    · have := isHexByte_range hb1; omega
    · have := isHexByte_range hb2; omega
    · have := isHexByte_range hc1; omega
    · have := isHexByte_range hc2; omega
  have er : 16 * (r / 16) + r % 16 = r := by omega
  have eg : 16 * (g / 16) + g % 16 = g := by omega
  have eb : 16 * (b / 16) + b % 16 = b := by omega
  have h35 : afterFirstSub [35]
      (35 :: [hexDigitByte (r / 16), hexDigitByte (r % 16),
        hexDigitByte (g / 16), hexDigitByte (g % 16),
        hexDigitByte (b / 16), hexDigitByte (b % 16)])
      = some [hexDigitByte (r / 16), hexDigitByte (r % 16),
          hexDigitByte (g / 16), hexDigitByte (g % 16),
          hexDigitByte (b / 16), hexDigitByte (b % 16)] := by
    simp [afterFirstSub, headMatches]
  simp only [rgb_from_hexlike_b, pyStrip_eq_self hws, h114, h35, hctl,
    List.take, List.drop, pyIntHex_pair ha1 ha2, pyIntHex_pair hb1 hb2,
    pyIntHex_pair hc1 hc2, Option.bind_some, ha1v, ha2v, hb1v, hb2v,
    hc1v, hc2v, er, eg, eb]
  rfl

lemma cfbStage_not_error (e : Env) (u : Unit)
    (hnwt : e.wtBg ≠ Except.error ()) :
    (cfbStage e).1 ≠ Except.error u := by
  cases hc : cfbSample e with
  | some rgb => simp [cfbStage, hc]
  | none =>
    cases hw : e.isWindows with
    | true =>
      rcases hwt : e.wtBg with u' | ⟨_ | rgb⟩
      · cases u'; exact absurd hwt hnwt
      · cases hcon : e.consoleBg with
        | some rgb => simp [cfbStage, hc, termStage, hw, hwt, hcon]
        | none =>
          cases hwp : truthy e.winPref with
          | some p =>
              simp [cfbStage, hc, termStage, hw, hwt, hcon, prefStage, hwp]
          | none =>
              simp [cfbStage, hc, termStage, hw, hwt, hcon, prefStage, hwp]
      · simp [cfbStage, hc, termStage, hw, hwt]
    | false =>
      cases hg : e.gnomeTermBg with
      | some rgb => simp [cfbStage, hc, termStage, hw, hg]
      | none =>
        cases hp : truthy e.portalPref with
        | some p => simp [cfbStage, hc, termStage, hw, hg, prefStage, hp]
        | none =>
          cases hgp : truthy e.gnomePref with
          | some p =>
              simp [cfbStage, hc, termStage, hw, hg, prefStage, hp, hgp]
          | none =>
              simp [cfbStage, hc, termStage, hw, hg, prefStage, hp, hgp]

lemma searchRgb_hit {rest : Str} {g : Str × Str × Str}
    (h : matchTriple rest = some g) :
    searchRgb (114 :: 103 :: 98 :: 58 :: rest) = some g := by
  have e : searchRgb (114 :: 103 :: 98 :: 58 :: rest)
      = (matchTriple rest).orElse
          (fun _ => searchRgb (103 :: 98 :: 58 :: rest)) := rfl
  rw [e, h]
  rfl

lemma matchTriple_four {p1 p2 p3 p4 q1 q2 q3 q4 s1 s2 s3 s4 : Nat}
    (hp1 : isHexByte p1 = true) (hp2 : isHexByte p2 = true)
    (hp3 : isHexByte p3 = true) (hp4 : isHexByte p4 = true)
    (hq1 : isHexByte q1 = true) (hq2 : isHexByte q2 = true)
    (hq3 : isHexByte q3 = true) (hq4 : isHexByte q4 = true)
    (hs1 : isHexByte s1 = true) (hs2 : isHexByte s2 = true)
    (hs3 : isHexByte s3 = true) (hs4 : isHexByte s4 = true) :
    matchTriple [p1, p2, p3, p4, 47, q1, q2, q3, q4, 47, s1, s2, s3, s4]
      = some ([p1, p2, p3, p4], [q1, q2, q3, q4], [s1, s2, s3, s4]) := by
  simp [matchTriple, firstSome, takeExactHex, expectByte, Option.orElse,
    hp1, hp2, hp3, hp4, hq1, hq2, hq3, hq4, hs1, hs2, hs3, hs4]

lemma matchTriple_two {p1 p2 q1 q2 s1 s2 : Nat}
    (hp1 : isHexByte p1 = true) (hp2 : isHexByte p2 = true)
    (hq1 : isHexByte q1 = true) (hq2 : isHexByte q2 = true)
    (hs1 : isHexByte s1 = true) (hs2 : isHexByte s2 = true) :
    matchTriple [p1, p2, 47, q1, q2, 47, s1, s2]
      = some ([p1, p2], [q1, q2], [s1, s2]) := by
  simp [matchTriple, firstSome, takeExactHex, expectByte, Option.orElse,
    hp1, hp2, hq1, hq2, hs1, hs2,
    (by decide : isHexByte 47 = false)]

/-! ## Claim theorems -/

/-- The value of the double `0.5`. -/
lemma fval_fHalf : fval fHalf = 0.5 := by
  rw [fval, fHalf]
  push_cast
  rw [zpow_neg, show (53 : Int) = ((53 : Nat) : Int) from rfl,
    zpow_natCast]
  norm_num

/-- The modelled IEEE comparison agrees with comparison of the exact
values of the represented doubles. -/
lemma flt_iff_fval (a b : F) : flt a b = true ↔ fval a < fval b := by
  have hne : (2 : ℚ) ≠ 0 := two_ne_zero
  have h2 : (0 : ℚ) < (2 : ℚ) ^ (min a.2 b.2) := zpow_pos (by norm_num) _
  have key : ∀ m x : Int, min a.2 b.2 ≤ x →
      (m : ℚ) * (2 : ℚ) ^ x
        = ((m * 2 ^ (x - min a.2 b.2).toNat : Int) : ℚ)
            * (2 : ℚ) ^ (min a.2 b.2) := by
    intro m x hx
    push_cast
    rw [← zpow_natCast (2 : ℚ) (x - min a.2 b.2).toNat,
      Int.toNat_of_nonneg (by omega), mul_assoc, ← zpow_add₀ hne,
      Int.sub_add_cancel]
  unfold flt fval
  rw [decide_eq_true_eq, key a.1 a.2 (min_le_left _ _),
    key b.1 b.2 (min_le_right _ _), mul_lt_mul_right h2, Int.cast_lt]

set_option maxRecDepth 100000 in
/-- C4 counterexample: the sample `(13,163,113)` has exact Rec. 709
luma exactly `0.5`, but `_luma` computes the binary64 value
`0.5 - 2^-53` (significand `2^53 - 2` at exponent `-54`), so
`_mode_from_rgb` returns `"dark"` — falsifying the claim's conjunct
that every exact-tie sample is classified Light. -/
theorem classifier_tie_counterexample :
    lumaSpec (13, 163, 113) = 0.5
    ∧ luma (13, 163, 113) = (2 ^ 53 - 2, -54)
    ∧ mode_from_rgb (13, 163, 113) = "dark" :=
  ⟨by norm_num [lumaSpec], by decide, by decide⟩

set_option maxRecDepth 100000 in
/-- C4 (amended): `_mode_from_rgb` is a pure, total, deterministic
function returning `"dark"` exactly when the binary64 evaluation of
`0.2126*(r/255) + 0.7152*(g/255) + 0.0722*(b/255)` is strictly below
`0.5` and `"light"` otherwise; `classify(0,0,0) = dark` and
`classify(255,255,255) = light`; a sample whose computed double luma
is exactly `0.5` is classified light, but a sample whose exact
rational luma is `0.5` may round below and be classified dark:
`(13,163,113)` is dark while `(47,143,211)` is light. -/
theorem classifier_float_threshold :
    (∀ s : RGB, mode_from_rgb s = "dark" ↔ fval (luma s) < 0.5)
    ∧ mode_from_rgb (0, 0, 0) = "dark"
    ∧ mode_from_rgb (255, 255, 255) = "light"
    ∧ (∀ s : RGB, fval (luma s) = 0.5 → mode_from_rgb s = "light")
    ∧ (lumaSpec (13, 163, 113) = 0.5
        ∧ mode_from_rgb (13, 163, 113) = "dark")
    ∧ (lumaSpec (47, 143, 211) = 0.5
        ∧ mode_from_rgb (47, 143, 211) = "light") := by
  refine ⟨fun s => ?_, by decide, by decide, fun s h => ?_,
    ⟨by norm_num [lumaSpec], by decide⟩,
    ⟨by norm_num [lumaSpec], by decide⟩⟩
  · simp only [mode_from_rgb, ← fval_fHalf, ← flt_iff_fval]
    cases h : flt (luma s) fHalf
    · decide
    · decide
  · have hf : flt (luma s) fHalf = false := by
      cases hc : flt (luma s) fHalf
      · rfl
      · exact absurd ((flt_iff_fval _ _).mp hc)
          (by rw [fval_fHalf, h]; exact lt_irrefl _)
    simp [mode_from_rgb, hf]

set_option maxRecDepth 100000 in
/-- Witness for C4: `(47,143,211)` computes double luma exactly `0.5`
and is classified light. -/
theorem classifier_float_threshold_witness :
    fval (luma (47, 143, 211)) = 0.5
    ∧ mode_from_rgb (47, 143, 211) = "light" := by
  have h : luma (47, 143, 211) = fHalf := by decide
  have hv : fval (luma (47, 143, 211)) = 0.5 := by rw [h, fval_fHalf]
  exact ⟨hv, classifier_float_threshold.2.2.2.1 (47, 143, 211) hv⟩

set_option maxRecDepth 100000 in
/-- C9: `_rgb_from_colorfgbg` uses only the last `;`-separated segment:
`"15;0"` gives `(0,0,0)` hence dark, `"0;15"` gives `(255,255,255)`
hence light, and an out-of-range index or a failed parse gives no
sample. -/
theorem colorfgbg_last_segment :
    rgb_from_colorfgbg "15;0" = some (0, 0, 0)
    ∧ mode_from_rgb (0, 0, 0) = "dark"
    ∧ rgb_from_colorfgbg "0;15" = some (255, 255, 255)
    ∧ mode_from_rgb (255, 255, 255) = "light"
    ∧ (∀ s t : String,
        cfbLastSegment (s.data.map Char.toNat)
          = cfbLastSegment (t.data.map Char.toNat) →
        rgb_from_colorfgbg s = rgb_from_colorfgbg t)
    ∧ (∀ s : Str, cfbIndexB s = none → rgb_from_colorfgbg_b s = none)
    ∧ (∀ (s : Str) (i : Int), cfbIndexB s = some i → i < 0 ∨ 15 < i →
        rgb_from_colorfgbg_b s = none) := by
  refine ⟨by decide, by decide, by decide, by decide,
    fun s t h => ?_, fun s h => ?_, fun s i h hi => ?_⟩
  · simp only [rgb_from_colorfgbg, rgb_from_colorfgbg_b, cfbIndexB, h]
  · simp [rgb_from_colorfgbg_b, h]
  · rcases hi with hi | hi
    · have h0 : ¬ (0 : Int) ≤ i := by omega
      simp [rgb_from_colorfgbg_b, h, h0]
    · have h0 : ¬ i < 16 := by omega
      simp [rgb_from_colorfgbg_b, h, h0]

/-- Witness for C9: `"1;99"` has background index 99, outside `[0,15]`,
so the heuristic yields no sample; `"15;0"` and `"0;15"` agree with a
string with the same last segment. -/
theorem colorfgbg_last_segment_witness :
    rgb_from_colorfgbg_b ("1;99".data.map Char.toNat) = none
    ∧ rgb_from_colorfgbg "7;0" = rgb_from_colorfgbg "15;0" :=
  ⟨colorfgbg_last_segment.2.2.2.2.2.2 ("1;99".data.map Char.toNat) 99
      (by decide) (by decide),
    colorfgbg_last_segment.2.2.2.2.1 "7;0" "15;0" (by decide)⟩

/-- C7 counterexample: a bare 6-hex-digit string (no `#`, no `rgb:`)
is rejected by `_rgb_from_hexlike`, contrary to the claim. -/
theorem hexlike_bare_counterexample : rgb_from_hexlike "aabbcc" = none := by
  decide

/-- C7 (amended): the hex-like path accepts `#RRGGBB`, taking the three
8-bit channels from the consecutive hex-digit pairs after `#`, but a
string containing neither `#` nor `rgb:` — in particular a bare
6-hex-digit string — yields no sample. -/
theorem hexlike_hash_only :
    (∀ r g b : Nat, r < 256 → g < 256 → b < 256 →
       rgb_from_hexlike_b (hashEncode r g b)
         = some ((r : Int), (g : Int), (b : Int)))
    ∧ (∀ s : Str, afterFirstSub rgbColonPat (pyStrip s) = none →
        afterFirstSub [35] (pyStrip s) = none →
        rgb_from_hexlike_b s = none) := by
  refine ⟨hexlike_hash, fun s h1 h2 => ?_⟩
  simp only [rgb_from_hexlike_b, h1, h2]

/-- Witness for C7: `#101010` parses to `(16,16,16)` and the bare string
`aabbcc` is rejected. -/
theorem hexlike_hash_only_witness :
    rgb_from_hexlike_b (hashEncode 16 16 16) = some (16, 16, 16)
    ∧ rgb_from_hexlike_b ("aabbcc".data.map Char.toNat) = none :=
  ⟨hexlike_hash_only.1 16 16 16 (by decide) (by decide) (by decide),
    hexlike_hash_only.2 ("aabbcc".data.map Char.toNat) (by decide)
      (by decide)⟩

/-- C8 counterexample: the OSC query byte string has length 8, not the
7 stated by the claim. -/
theorem osc_query_length_counterexample :
    querySequence.length = 8 ∧ querySequence.length ≠ 7 := by decide

/-- C8 (amended): the bytes written by the terminal query probe are
exactly `ESC ] 11 ; ? ESC \`, i.e. `1B 5D 31 31 3B 3F 1B 5C` — an
8-byte sequence. -/
theorem osc_query_bytes :
    querySequence = [0x1B, 0x5D, 0x31, 0x31, 0x3B, 0x3F, 0x1B, 0x5C]
    ∧ querySequence.length = 8
    ∧ ∀ (S : Type) (cbreak : S → S) (e : OscEnv) (s0 : S),
        e.openOk = true → e.writeOk = true →
        (osc_query S cbreak false e s0).written = querySequence := by
  refine ⟨by decide, by decide, fun S cbreak e s0 ho hw => ?_⟩
  simp only [osc_query, ho, hw, Bool.not_true, Bool.false_eq_true,
    if_false]
  cases hR : e.readable
  · simp
  · simp only [Bool.not_true, Bool.false_eq_true, if_false]
    rcases hL : oscLoop e.reads [] with u | ob
    · cases u; simp
    · cases ob <;> simp

/-- Witness for C8: a concrete successful run writes the 8-byte query. -/
theorem osc_query_bytes_witness :
    (osc_query Nat Nat.succ false ⟨true, true, false, []⟩ 0).written
      = querySequence :=
  osc_query_bytes.2.2 Nat Nat.succ ⟨true, true, false, []⟩ 0 rfl rfl

/-- C2: once the probe has entered raw mode (the device opened), every
outcome — parsed reply, timeout, malformed or overflowed reply, or an
I/O error mid-read — restores the saved terminal settings and closes
the device handle before the probe returns, so the settings observed
after the probe equal the settings observed before it. -/
theorem osc_restores_terminal :
    ∀ (S : Type) (cbreak : S → S) (isWin : Bool) (e : OscEnv) (s0 : S),
      isWin = false → e.openOk = true →
      (osc_query S cbreak isWin e s0).settings = s0
      ∧ (osc_query S cbreak isWin e s0).handleOpen = false := by
  intro S cbreak isWin e s0 hW ho
  subst hW
  simp only [osc_query, ho, Bool.not_true, Bool.false_eq_true, if_false]
  cases hw : e.writeOk
  · simp
  · simp only [Bool.not_true, Bool.false_eq_true, if_false]
    cases hr : e.readable
    · simp
    · simp only [Bool.not_true, Bool.false_eq_true, if_false]
      rcases hL : oscLoop e.reads [] with u | ob
      · cases u; simp
      · cases ob <;> simp

/-- Witness for C2: a run whose only read raises restores the settings
(`cbreak` is `Nat.succ`, so raw mode really changed them). -/
theorem osc_restores_terminal_witness :
    (osc_query Nat Nat.succ false
        ⟨true, true, true, [ReadEv.readErr]⟩ 0).settings = 0
    ∧ (osc_query Nat Nat.succ false
        ⟨true, true, true, [ReadEv.readErr]⟩ 0).handleOpen = false :=
  osc_restores_terminal Nat Nat.succ false
    ⟨true, true, true, [ReadEv.readErr]⟩ 0 rfl rfl

/-- C1 counterexample: the public query can raise, in two ways.  On a
non-Windows host a controlling terminal whose `os.read` raises
mid-read lets the `OSError` escape `_detect`; on Windows, with
`WT_PROFILE_ID` set and a `settings.json` whose `profiles` value is
not a dict, `data.get("profiles", {}).get("defaults", {})` raises
`AttributeError` outside every handler and escapes `_detect`.  The
claim's universal "never raises" is false. -/
theorem detect_error_counterexample :
    detect ⟨false, ⟨true, true, true, [ReadEv.readErr]⟩, none,
        Except.ok none, none, none, none, none, none⟩ = Except.error ()
    ∧ detect ⟨true, ⟨false, true, true, []⟩, none, Except.error (),
        none, none, none, none, none⟩ = Except.error () :=
  ⟨rfl, rfl⟩

/-- C1 (amended): whenever neither the terminal query probe lets a
device I/O error escape (it returns a sample or no sample — covering
no controlling terminal, timeout, overflow, malformed reply) nor the
Windows Terminal settings probe lets its `AttributeError` escape, and
all other file/registry/IPC probes merely fail internally, the public
query returns a `DetectionResult`; when every probe yields no sample
and no preference the result is exactly `{dark, default, none}`. -/
theorem detect_total_default :
    ∀ e : Env, (∀ u : Unit, oscResult e.isWindows e.osc ≠ Except.error u) →
      e.wtBg ≠ Except.error () →
      (∃ r, detect e = Except.ok r)
      ∧ (oscResult e.isWindows e.osc = Except.ok none →
         cfbSample e = none → e.wtBg = Except.ok none →
         e.consoleBg = none → e.gnomeTermBg = none →
         truthy e.winPref = none → truthy e.portalPref = none →
         truthy e.gnomePref = none →
         detect e = Except.ok ⟨"dark", "default", none⟩) := by
  intro e hosc hnwt
  constructor
  · cases hw : e.isWindows with
    | true =>
      rcases h : (cfbStage e).1 with u | r
      · exact absurd h (cfbStage_not_error e u hnwt)
      · exact ⟨r, by simp [detect, detectT, hw, h]⟩
    | false =>
      rw [hw] at hosc
      rcases ho : oscResult false e.osc with u | ores
      · exact absurd ho (hosc u)
      · cases ores with
        | some rgb =>
            exact ⟨⟨mode_from_rgb rgb, "osc-11", some rgb⟩,
              by simp [detect, detectT, hw, ho]⟩
        | none =>
            rcases h : (cfbStage e).1 with u | r
            · exact absurd h (cfbStage_not_error e u hnwt)
            · exact ⟨r, by simp [detect, detectT, hw, ho, h]⟩
  · intro h1 h2 h3 h4 h5 h6 h7 h8
    cases hw : e.isWindows with
    | true =>
        simp [detect, detectT, hw, cfbStage, h2, termStage, h3, h4,
          prefStage, h6]
    | false =>
        rw [hw] at h1
        simp [detect, detectT, hw, h1, cfbStage, h2, termStage, h5,
          prefStage, h7, h8]

/-- Witness for C1: no controlling terminal, no environment variables,
and all file/registry/IPC probes failing give `{dark, default, none}`. -/
theorem detect_total_default_witness :
    detect envAllFail = Except.ok ⟨"dark", "default", none⟩ :=
  (detect_total_default envAllFail (fun _ h => nomatch h)
      (fun h => nomatch h)).2 rfl rfl rfl rfl rfl rfl rfl rfl

/-- C5: on a non-Windows host (with the OSC probe not raising),
`_detect` runs exactly the sequence terminal query, COLORFGBG,
GNOME-Terminal profile, settings portal, desktop interface, default,
in that order, stopping at the first probe that yields a concrete
answer; in particular when the terminal query returns a sample no
later probe runs. -/
theorem nonwin_probe_order :
    ∀ e : Env, e.isWindows = false →
      (∀ u : Unit, oscResult false e.osc ≠ Except.error u) →
      (detectT e).2
        = probeOrderNonWin.take
            (probeOrderNonWin.findIdx (probeYields e) + 1)
      ∧ (∀ rgb, oscResult false e.osc = Except.ok (some rgb) →
          (detectT e).2 = [Probe.osc]) := by
  intro e hw hosc
  have main : (detectT e).2
      = probeOrderNonWin.take
          (probeOrderNonWin.findIdx (probeYields e) + 1) := by
    rcases ho : oscResult false e.osc with u | ores
    · exact absurd ho (hosc u)
    · cases ores with
      | some rgb =>
          simp [detectT, hw, ho, probeOrderNonWin, List.findIdx,
            List.findIdx.go, probeYields, List.take]
      | none =>
        cases hc : cfbSample e with
        | some rgb =>
            simp [detectT, hw, ho, cfbStage, hc, probeOrderNonWin,
              List.findIdx, List.findIdx.go, probeYields, List.take]
        | none =>
          cases hg : e.gnomeTermBg with
          | some rgb =>
              simp [detectT, hw, ho, cfbStage, hc, termStage, hg,
                probeOrderNonWin, List.findIdx, List.findIdx.go,
                probeYields, List.take]
          | none =>
            cases hp : truthy e.portalPref with
            | some p =>
                simp [detectT, hw, ho, cfbStage, hc, termStage, hg,
                  prefStage, hp, probeOrderNonWin, List.findIdx,
                  List.findIdx.go, probeYields, List.take]
            | none =>
              cases hgp : truthy e.gnomePref with
              | some p =>
                  simp [detectT, hw, ho, cfbStage, hc, termStage, hg,
                    prefStage, hp, hgp, probeOrderNonWin, List.findIdx,
                    List.findIdx.go, probeYields, List.take]
              | none =>
                  simp [detectT, hw, ho, cfbStage, hc, termStage, hg,
                    prefStage, hp, hgp, probeOrderNonWin, List.findIdx,
                    List.findIdx.go, probeYields, List.take]
  refine ⟨main, fun rgb ho => ?_⟩
  simp [detectT, hw, ho]

/-- Witness for C5: when the terminal query yields a black sample, the
trace is the single terminal-query probe. -/
theorem nonwin_probe_order_witness :
    (detectT ⟨false,
        ⟨true, true, true,
          [ReadEv.byte 114, ReadEv.byte 103, ReadEv.byte 98,
           ReadEv.byte 58, ReadEv.byte 48, ReadEv.byte 48,
           ReadEv.byte 47, ReadEv.byte 48, ReadEv.byte 48,
           ReadEv.byte 47, ReadEv.byte 48, ReadEv.byte 48,
           ReadEv.byte 7]⟩,
        none, Except.ok none, none, none, none, none, none⟩).2
      = [Probe.osc] := by
  have hosc : oscResult false
      ⟨true, true, true,
        [ReadEv.byte 114, ReadEv.byte 103, ReadEv.byte 98,
         ReadEv.byte 58, ReadEv.byte 48, ReadEv.byte 48,
         ReadEv.byte 47, ReadEv.byte 48, ReadEv.byte 48,
         ReadEv.byte 47, ReadEv.byte 48, ReadEv.byte 48,
         ReadEv.byte 7]⟩ = Except.ok (some (0, 0, 0)) := rfl
  exact (nonwin_probe_order _ rfl
    (fun u h => by rw [hosc] at h; exact Except.noConfusion h)).2
    (0, 0, 0) hosc

/-- C6: the first query on a `TerminalThemeDetector` computes and
freezes the result; any query on an instance whose cache is filled
returns the frozen value and invokes zero probes, so two sequential
queries agree and the second adds no probe work. -/
theorem cache_write_once :
    (∀ (d : Detector) (r : DetectionResult) (e : Env),
        d.cached = some r →
        terminal_themeT d e = (Except.ok (r.mode, d), []))
    ∧ (∀ (e1 e2 : Env) (m : String) (d1 : Detector) (t1 : List Probe),
        terminal_themeT Detector.init e1 = (Except.ok (m, d1), t1) →
        terminal_themeT d1 e2 = (Except.ok (m, d1), [])) := by
  constructor
  · intro d r e h
    simp [terminal_themeT, h]
  · intro e1 e2 m d1 t1 h
    simp only [terminal_themeT, Detector.init] at h
    rcases hD : detectT e1 with ⟨res, t⟩
    rw [hD] at h
    cases res with
    | error u => cases u; simp at h
    | ok r =>
        simp only [Prod.mk.injEq, Except.ok.injEq] at h
        obtain ⟨⟨hm, hd⟩, ht⟩ := h
        rw [← hd, ← hm]
        simp [terminal_themeT]

/-- Witness for C6: on the all-fail environment the first query caches
`{dark, default, none}` after the full probe chain, and the second
query returns the same mode with an empty probe trace. -/
theorem cache_write_once_witness :
    terminal_themeT ⟨some ⟨"dark", "default", none⟩⟩ envAllFail
      = (Except.ok ("dark", ⟨some ⟨"dark", "default", none⟩⟩), []) :=
  cache_write_once.2 envAllFail envAllFail "dark"
    ⟨some ⟨"dark", "default", none⟩⟩ fullTrace rfl

/-- C10: `terminal_theme` and `details` share the same write-once
cache: after either accessor fills it, the other returns the same
stored result with zero further probe invocations, and
`terminal_theme` always equals `details.mode`. -/
theorem accessors_share_cache :
    (∀ (e1 e2 : Env) (m : String) (d1 : Detector) (t1 : List Probe),
        terminal_themeT Detector.init e1 = (Except.ok (m, d1), t1) →
        ∃ r, detailsT d1 e2 = (Except.ok (r, d1), []) ∧ r.mode = m)
    ∧ (∀ (e1 e2 : Env) (r : DetectionResult) (d1 : Detector)
        (t1 : List Probe),
        detailsT Detector.init e1 = (Except.ok (r, d1), t1) →
        terminal_themeT d1 e2 = (Except.ok (r.mode, d1), [])) := by
  constructor
  · intro e1 e2 m d1 t1 h
    simp only [terminal_themeT, Detector.init] at h
    rcases hD : detectT e1 with ⟨res, t⟩
    rw [hD] at h
    cases res with
    | error u => cases u; simp at h
    | ok r =>
        simp only [Prod.mk.injEq, Except.ok.injEq] at h
        obtain ⟨⟨hm, hd⟩, ht⟩ := h
        refine ⟨r, ?_, hm⟩
        rw [← hd]
        simp [detailsT]
  · intro e1 e2 r d1 t1 h
    simp only [detailsT, Detector.init] at h
    rcases hD : detectT e1 with ⟨res, t⟩
    rw [hD] at h
    cases res with
    | error u => cases u; simp at h
    | ok r' =>
        simp only [Prod.mk.injEq, Except.ok.injEq] at h
        obtain ⟨⟨hr, hd⟩, ht⟩ := h
        rw [← hd, ← hr]
        simp [terminal_themeT]

/-- Witness for C10: on the all-fail environment, after
`terminal_theme` fills the cache, `details` reads the same stored
result with no probe work, and its mode matches. -/
theorem accessors_share_cache_witness :
    ∃ r, detailsT ⟨some ⟨"dark", "default", none⟩⟩ envAllFail
        = (Except.ok (r, ⟨some ⟨"dark", "default", none⟩⟩), [])
      ∧ r.mode = "dark" :=
  accessors_share_cache.1 envAllFail envAllFail "dark"
    ⟨some ⟨"dark", "default", none⟩⟩ fullTrace rfl

/-- C3: parsing a reply `rgb:RRRR/GGGG/BBBB` built by duplicating each
channel's two hex digits returns exactly `(r,g,b)`; in general a
4-hex-digit component contributes only its two most-significant hex
digits (truncation, not rescaling), and a 2-hex-digit component is used
as-is. -/
theorem osc_parse_roundtrip :
    (∀ r g b : Nat, r < 256 → g < 256 → b < 256 →
       oscParse (oscEncode4 r g b)
         = some ((r : Int), (g : Int), (b : Int)))
    ∧ (∀ h1 l1 h2 l2 h3 l3 : Nat, h1 < 256 → l1 < 256 → h2 < 256 →
        l2 < 256 → h3 < 256 → l3 < 256 →
        oscParse (oscEncodeHL h1 l1 h2 l2 h3 l3)
          = some ((h1 : Int), (h2 : Int), (h3 : Int)))
    ∧ (∀ r g b : Nat, r < 256 → g < 256 → b < 256 →
       oscParse (oscEncode2 r g b)
         = some ((r : Int), (g : Int), (b : Int))) := by
  have hHL : ∀ h1 l1 h2 l2 h3 l3 : Nat, h1 < 256 → l1 < 256 → h2 < 256 →
      l2 < 256 → h3 < 256 → l3 < 256 →
      oscParse (oscEncodeHL h1 l1 h2 l2 h3 l3)
        = some ((h1 : Int), (h2 : Int), (h3 : Int)) := by
    intro h1 l1 h2 l2 h3 l3 H1 L1 H2 L2 H3 L3
    obtain ⟨xa1, va1, _⟩ := hexDigitByte_facts (h1 / 16) (by omega)
    obtain ⟨xa2, va2, _⟩ := hexDigitByte_facts (h1 % 16) (by omega)
    obtain ⟨xa3, va3, _⟩ := hexDigitByte_facts (l1 / 16) (by omega)
    obtain ⟨xa4, va4, _⟩ := hexDigitByte_facts (l1 % 16) (by omega)
    obtain ⟨xb1, vb1, _⟩ := hexDigitByte_facts (h2 / 16) (by omega)
    obtain ⟨xb2, vb2, _⟩ := hexDigitByte_facts (h2 % 16) (by omega)
    obtain ⟨xb3, vb3, _⟩ := hexDigitByte_facts (l2 / 16) (by omega)
    obtain ⟨xb4, vb4, _⟩ := hexDigitByte_facts (l2 % 16) (by omega)
    obtain ⟨xc1, vc1, _⟩ := hexDigitByte_facts (h3 / 16) (by omega)
    obtain ⟨xc2, vc2, _⟩ := hexDigitByte_facts (h3 % 16) (by omega)
    obtain ⟨xc3, vc3, _⟩ := hexDigitByte_facts (l3 / 16) (by omega)
    obtain ⟨xc4, vc4, _⟩ := hexDigitByte_facts (l3 % 16) (by omega)
    have hcs : oscEncodeHL h1 l1 h2 l2 h3 l3
        = 114 :: 103 :: 98 :: 58 ::
          [hexDigitByte (h1 / 16), hexDigitByte (h1 % 16),
           hexDigitByte (l1 / 16), hexDigitByte (l1 % 16), 47,
           hexDigitByte (h2 / 16), hexDigitByte (h2 % 16),
           hexDigitByte (l2 / 16), hexDigitByte (l2 % 16), 47,
           hexDigitByte (h3 / 16), hexDigitByte (h3 % 16),
           hexDigitByte (l3 / 16), hexDigitByte (l3 % 16)] := by
      simp [oscEncodeHL, hexPair, rgbColonPat]
    have hmt := matchTriple_four xa1 xa2 xa3 xa4 xb1 xb2 xb3 xb4 xc1
      xc2 xc3 xc4
    have f1 : firstTwoHexVal [hexDigitByte (h1 / 16),
        hexDigitByte (h1 % 16), hexDigitByte (l1 / 16),
        hexDigitByte (l1 % 16)] = h1 := by
      simp [firstTwoHexVal, List.take, va1, va2]
      omega
    have f2 : firstTwoHexVal [hexDigitByte (h2 / 16),
        hexDigitByte (h2 % 16), hexDigitByte (l2 / 16),
        hexDigitByte (l2 % 16)] = h2 := by
      simp [firstTwoHexVal, List.take, vb1, vb2]
      omega
    have f3 : firstTwoHexVal [hexDigitByte (h3 / 16),
        hexDigitByte (h3 % 16), hexDigitByte (l3 / 16),
        hexDigitByte (l3 % 16)] = h3 := by
      simp [firstTwoHexVal, List.take, vc1, vc2]
      omega
    rw [hcs]
    simp [oscParse, searchRgb_hit hmt, f1, f2, f3]
  refine ⟨fun r g b hr hg hb => hHL r r g g b b hr hr hg hg hb hb, hHL,
    fun r g b hr hg hb => ?_⟩
  obtain ⟨xa1, va1, _⟩ := hexDigitByte_facts (r / 16) (by omega)
  obtain ⟨xa2, va2, _⟩ := hexDigitByte_facts (r % 16) (by omega)
  obtain ⟨xb1, vb1, _⟩ := hexDigitByte_facts (g / 16) (by omega)
  obtain ⟨xb2, vb2, _⟩ := hexDigitByte_facts (g % 16) (by omega)
  obtain ⟨xc1, vc1, _⟩ := hexDigitByte_facts (b / 16) (by omega)
  obtain ⟨xc2, vc2, _⟩ := hexDigitByte_facts (b % 16) (by omega)
  have hcs : oscEncode2 r g b
      = 114 :: 103 :: 98 :: 58 ::
        [hexDigitByte (r / 16), hexDigitByte (r % 16), 47,
         hexDigitByte (g / 16), hexDigitByte (g % 16), 47,
         hexDigitByte (b / 16), hexDigitByte (b % 16)] := by
    simp [oscEncode2, hexPair, rgbColonPat]
  have hmt := matchTriple_two xa1 xa2 xb1 xb2 xc1 xc2
  have f1 : firstTwoHexVal [hexDigitByte (r / 16),
      hexDigitByte (r % 16)] = r := by
    simp [firstTwoHexVal, List.take, va1, va2]
    omega
  have f2 : firstTwoHexVal [hexDigitByte (g / 16),
      hexDigitByte (g % 16)] = g := by
    simp [firstTwoHexVal, List.take, vb1, vb2]
    omega
  have f3 : firstTwoHexVal [hexDigitByte (b / 16),
      hexDigitByte (b % 16)] = b := by
    simp [firstTwoHexVal, List.take, vc1, vc2]
    omega
  rw [hcs]
  simp [oscParse, searchRgb_hit hmt, f1, f2, f3]

/-- Witness for C3: duplicated, mixed 4-digit, and 2-digit components
parse to the expected channels; the mixed case shows truncation
(low hex digits ignored, no rescaling). -/
theorem osc_parse_roundtrip_witness :
    oscParse (oscEncode4 170 187 204) = some (170, 187, 204)
    ∧ oscParse (oscEncodeHL 18 255 52 0 86 9) = some (18, 52, 86)
    ∧ oscParse (oscEncode2 171 205 239) = some (171, 205, 239) :=
  ⟨osc_parse_roundtrip.1 170 187 204 (by decide) (by decide) (by decide),
    osc_parse_roundtrip.2.1 18 255 52 0 86 9 (by decide) (by decide)
      (by decide) (by decide) (by decide) (by decide),
    osc_parse_roundtrip.2.2 171 205 239 (by decide) (by decide)
      (by decide)⟩

end NicelsTheme
